import Mathlib

/-!
Verification of the correlation/alerting engine of the cybersecuritysaas
backend against its specification.

The definitions below are a shallow embedding, in Lean, of the Python code in
`backend/services/alert_checker.py`, `backend/services/cve_scraper.py`,
`backend/services/cve_enrichment.py`, `backend/services/slack_webhook.py`,
`backend/routers/alerts.py` and `backend/scheduler/cron.py`.  Python strings
become `String` (manipulated through their underlying character lists so that
everything reduces in the kernel), `None`-able strings become `Option String`,
Python truthiness of a string (`if s:`) becomes "present and non-empty",
dictionaries with a fixed key set become structures with `Option` fields, and
the database table of alerts becomes a list of alert records, with
`SELECT ... WHERE` as `filter` and `INSERT` as append.  Exceptions are
modelled with `Except`; a Python `try/except` that logs and continues becomes
a total function that records the failure in its result instead of
propagating it.

The file is organised as definitions first, then the theorems.
-/

namespace CyberSaas

/-! ## Definitions -/

/-! ### Fuzzy matching (`AlertChecker._fuzzy_match`)

`normalizeL` embeds `re.sub(r'[^a-z0-9]', '', x.lower())`: lowercase, then
keep only the characters in `a`-`z` and `0`-`9`.  The Python substring test
`norm1 in norm2` is embedded by `occursIn` on character lists. -/

/-- Characters kept by the normalization regex `[^a-z0-9]` (complement). -/
def isLowerAlnum (c : Char) : Bool :=
  (('a' ≤ c) && (c ≤ 'z')) || (('0' ≤ c) && (c ≤ '9'))

/-- Python's `x.lower()` on a character list. -/
def lowerL (l : List Char) : List Char := l.map Char.toLower

/-- `normalize = lambda x: re.sub(r'[^a-z0-9]', '', x.lower())`, on the
character list of the input. -/
def normalizeL (l : List Char) : List Char := (lowerL l).filter isLowerAlnum

/-- `normalize` applied to a whole string. -/
def normalize (s : String) : List Char := normalizeL s.data

/-- `needle` is a prefix of `hay` (helper for the substring test). -/
def seqStartsWith : List Char → List Char → Bool
  | [], _ => true
  | _ :: _, [] => false
  | a :: as, b :: bs => a == b && seqStartsWith as bs

/-- Python's `needle in hay` substring containment on character lists.
`occursIn [] hay = true`, as in Python, where `"" in s` holds for every `s`. -/
def occursIn (needle : List Char) : List Char → Bool
  | [] => needle.isEmpty
  | c :: t => seqStartsWith needle (c :: t) || occursIn needle t

/-- The static `vendor_aliases` table of `_fuzzy_match`, verbatim. -/
def vendorAliases : List (String × List String) :=
  [ ("microsoft", ["msft", "ms"])
  , ("cisco", ["csco"])
  , ("fortinet", ["forti"])
  , ("apache", ["apache software foundation"]) ]

/-- The alias loop of `_fuzzy_match`: some table entry `(main, aliases)` has
`norm1 == main` and `norm2 ∈ aliases`, or symmetrically. -/
def aliasHit (n1 n2 : List Char) : Bool :=
  vendorAliases.any fun p =>
    (n1 == p.1.data && p.2.any fun a => n2 == a.data) ||
    (n2 == p.1.data && p.2.any fun a => n1 == a.data)

/-- `AlertChecker._fuzzy_match(text1, text2)` on character lists: normalize
both inputs, then succeed on exact equality, substring containment either
way, or a vendor-alias hit; otherwise fail.  The Python early `return True`s
are a disjunction. -/
def fuzzyMatchL (t1 t2 : List Char) : Bool :=
  let n1 := normalizeL t1
  let n2 := normalizeL t2
  n1 == n2 || occursIn n1 n2 || occursIn n2 n1 || aliasHit n1 n2

/-- `AlertChecker._fuzzy_match` on strings. -/
def fuzzyMatch (text1 text2 : String) : Bool :=
  fuzzyMatchL text1.data text2.data

/-! ### Asset matching (`AlertChecker._is_asset_affected_by_cve`)

An `Asset` keeps the four columns the matcher reads, all nullable in the
schema (`backend/models/asset.py`), hence `Option String`.  Python truthiness
(`if asset.vendor and asset.product:`) is "present and non-empty". -/

structure Asset where
  cpe_string : Option String
  vendor : Option String
  product : Option String
  version : Option String

/-- Python's `cpe.split(':')` on the character list of an identifier
(`"".split(':') == [""]`, and separators at the ends produce empty parts). -/
def splitColon : List Char → List (List Char)
  | [] => [[]]
  | c :: rest =>
      if c = ':' then [] :: splitColon rest
      else match splitColon rest with
        | [] => [[c]]
        | p :: ps => (c :: p) :: ps

/-- The `:`-separated components of an affected identifier. -/
def cpeTokens (cpe : String) : List (List Char) := splitColon cpe.data

/-- `cpe_parts[3].lower()` — the vendor component of an affected identifier
(guarded in the code by `len(cpe_parts) >= 5`). -/
def cpeVendorOf (cpe : String) : List Char := lowerL ((cpeTokens cpe).getD 3 [])

/-- `cpe_parts[4].lower()` — the product component. -/
def cpeProductOf (cpe : String) : List Char := lowerL ((cpeTokens cpe).getD 4 [])

/-- `cpe_parts[5].lower() if len(cpe_parts) > 5 else ""` — the version
component. -/
def cpeVersionOf (cpe : String) : List Char :=
  if 5 < (cpeTokens cpe).length then lowerL ((cpeTokens cpe).getD 5 []) else []

/-- One iteration of the `for cpe in cve_cpes` loop of
`_is_asset_affected_by_cve`, for an asset with lowercased vendor `av`,
product `ap` and version `aver` (empty when the asset has no version):
the identifier must have at least 5 `:`-separated components, vendor and
product must both fuzzy-match, and then the version check passes when the
asset version is empty, or the identifier's version is empty or `"*"`,
or the two are exactly equal. -/
def cpeMatchOne (av ap aver : List Char) (cpe : String) : Bool :=
  decide (5 ≤ (cpeTokens cpe).length) &&
    (fuzzyMatchL av (cpeVendorOf cpe) && fuzzyMatchL ap (cpeProductOf cpe) &&
      (aver.isEmpty || (cpeVersionOf cpe).isEmpty ||
        cpeVersionOf cpe == ['*'] || aver == cpeVersionOf cpe))

/-- `AlertChecker._is_asset_affected_by_cve(asset, cve_cpes, cve)`: first the
direct identifier membership test (`if asset.cpe_string and asset.cpe_string
in cve_cpes`), then — when the asset has a truthy vendor and product — the
fuzzy loop over the affected identifiers. -/
def isAssetAffectedByCve (asset : Asset) (cveCpes : List String) : Bool :=
  (match asset.cpe_string with
   | some s => !s.isEmpty && cveCpes.any (fun c => c.data == s.data)
   | none => false) ||
  (match asset.vendor, asset.product with
   | some v, some p =>
       !v.isEmpty && !p.isEmpty &&
         cveCpes.any
           (cpeMatchOne (lowerL v.data) (lowerL p.data)
             (lowerL ((asset.version.getD "").data)))
   | _, _ => false)

/-- `AlertChecker._is_asset_affected_by_vendor_advisory`: vendor-only fuzzy
match when the asset has a vendor. -/
def isAssetAffectedByVendorAdvisory (asset : Asset) (advisoryVendor : String) : Bool :=
  match asset.vendor with
  | some v => fuzzyMatchL (lowerL v.data) (lowerL advisoryVendor.data)
  | none => false

/-- The version policy exactly as the claim words it: accept when either
side's version is empty or the wildcard `"*"`, else require exact equality. -/
def specVersionAccept (aver cver : List Char) : Bool :=
  aver.isEmpty || aver == ['*'] || cver.isEmpty || cver == ['*'] || aver == cver

/-- The version policy the code actually implements: accept when the asset
side's version is empty, or the identifier side's version is empty or `"*"`,
else require exact equality.  An asset-side `"*"` is treated as a literal. -/
def codeVersionAccept (aver cver : List Char) : Bool :=
  aver.isEmpty || cver.isEmpty || cver == ['*'] || aver == cver

/-! ### Severity derivation (`CVEScraper._get_severity_from_score`)

CVSS scores are embedded as rationals; the scraper's thresholds `9.0`, `7.0`,
`4.0` are exact in both representations.  A record whose metrics carry no
base score reaches the function with `None`. -/

/-- `CVEScraper._get_severity_from_score(cvss_score)`. -/
def getSeverityFromScore : Option ℚ → String
  | none => "unknown"
  | some score =>
      if 9 ≤ score then "critical"
      else if 7 ≤ score then "high"
      else if 4 ≤ score then "medium"
      else "low"

/-- The values of the four-level `Severity` enum (`backend/models/alert.py`). -/
def severityLevels : List String := ["low", "medium", "high", "critical"]

/-! ### Alert status lifecycle (`backend/models/alert.py`, `backend/routers/alerts.py`)

The `Alert` rows carry a status from the `AlertStatus` enum; the routers'
`update_alert` applies every field set in the incoming `AlertUpdate`
(`setattr` per field of `model_dump(exclude_unset=True)`), and
`acknowledge_alert` sets the status to `ACKNOWLEDGED` and stamps
`acknowledged_at`. -/

/-- The `AlertStatus` enum. -/
inductive AlertStatus where
  | pending
  | sent
  | failed
  | acknowledged
deriving DecidableEq

/-- The columns of an alert row read or written by the status operations. -/
structure AlertRow where
  status : AlertStatus
  acknowledged_at : Option Nat

/-- The `AlertUpdate` schema: both fields optional, applied only when set. -/
structure AlertUpdatePayload where
  status : Option AlertStatus
  acknowledged_at : Option Nat

/-- `update_alert` (routers/alerts.py): `setattr(alert, field, value)` for
each field present in the update payload. -/
def updateAlert (a : AlertRow) (u : AlertUpdatePayload) : AlertRow :=
  { status := match u.status with | some s => s | none => a.status
  , acknowledged_at :=
      match u.acknowledged_at with | some t => some t | none => a.acknowledged_at }

/-- `acknowledge_alert` (routers/alerts.py): unconditionally set
`status = AlertStatus.ACKNOWLEDGED` and `acknowledged_at = utcnow()`,
whatever the previous row held. -/
def acknowledgeAlert (_previous : AlertRow) (now : Nat) : AlertRow :=
  { status := AlertStatus.acknowledged, acknowledged_at := some now }

/-! ### Enrichment merge (`CVEEnrichmentService.enrich_cve` and
`_create_alert_from_cve`'s `cve.update(enrichment)`)

`enrich_cve` returns either `{}` (on any exception, or when the NVD payload
has no items) or a dictionary with exactly the keys `cvss_score`,
`exploitability` and `remediation`, each possibly `None`.  The caller merges
it with Python's `dict.update`, which overwrites every key present in the
argument. -/

/-- The fields of a CVE record dictionary used by the alerting flow
(`affected_cpes` is filled by `_parse_cve` and read by
`_find_affected_assets`). -/
structure CveRecord where
  cve_id : Option String
  title : Option String
  description : Option String
  severity : Option String
  cvss_score : Option ℚ
  exploitability : Option ℚ
  remediation : Option String
  source_url : Option String
  affected_cpes : List String

/-- A non-empty enrichment result: the three keys `enrich_cve` returns, each
with a possibly-`None` value. -/
structure EnrichmentFields where
  cvss_score : Option ℚ
  exploitability : Option ℚ
  remediation : Option String

/-- `cve.update(enrichment)`: an empty result (`none`, the `{}` returned on
failure or when the payload has no items) leaves the record unchanged; a
non-empty result overwrites its three keys unconditionally. -/
def applyEnrichment (rec : CveRecord) : Option EnrichmentFields → CveRecord
  | none => rec
  | some e =>
      { rec with
        cvss_score := e.cvss_score
        exploitability := e.exploitability
        remediation := e.remediation }

/-! ### Alert store and idempotent creation (`_create_alert_from_cve`,
`_create_alert_from_advisory`)

The alert table is a list of rows; the existence check
`SELECT ... WHERE user_id = ... AND asset_id = ... AND cve_id = ...` is a
filter over it, and `db.add` is an append.  `_create_alert_from_cve` returns
without inserting when the existence check finds a row. -/

/-- The identity-bearing columns of an alert row. -/
structure AlertRec where
  user_id : Nat
  asset_id : Nat
  cve_id : Option String
  vendor_advisory_id : Option String
  status : AlertStatus

/-- The `WHERE` clause of the existence check in `_create_alert_from_cve`:
same `user_id`, `asset_id` and `cve_id`. -/
def matchesCveIdentity (uid aid : Nat) (cid : Option String) (al : AlertRec) : Bool :=
  al.user_id == uid && al.asset_id == aid && al.cve_id == cid

/-- The `WHERE` clause of the existence check in
`_create_alert_from_advisory`: same `user_id`, `asset_id` and
`vendor_advisory_id`. -/
def matchesAdvisoryIdentity (uid aid : Nat) (vid : Option String) (al : AlertRec) : Bool :=
  al.user_id == uid && al.asset_id == aid && al.vendor_advisory_id == vid

/-- `_create_alert_from_cve`: if an alert with the same composite identity
exists, return the store unchanged (idempotent no-op); otherwise insert a new
alert with status `PENDING`. -/
def createAlertFromCve (store : List AlertRec) (uid aid : Nat) (cid : Option String) :
    List AlertRec :=
  if store.any (matchesCveIdentity uid aid cid) then store
  else store ++ [⟨uid, aid, cid, none, AlertStatus.pending⟩]

/-- `_create_alert_from_advisory`: same shape, keyed on the advisory id. -/
def createAlertFromAdvisory (store : List AlertRec) (uid aid : Nat) (vid : Option String) :
    List AlertRec :=
  if store.any (matchesAdvisoryIdentity uid aid vid) then store
  else store ++ [⟨uid, aid, none, vid, AlertStatus.pending⟩]

/-- Number of persisted alerts with the given CVE composite identity. -/
def countCve (store : List AlertRec) (uid aid : Nat) (cid : Option String) : Nat :=
  List.countP (matchesCveIdentity uid aid cid) store

/-- Number of persisted alerts with the given advisory composite identity. -/
def countAdv (store : List AlertRec) (uid aid : Nat) (vid : Option String) : Nat :=
  List.countP (matchesAdvisoryIdentity uid aid vid) store

/-! ### The per-record processing step of `_process_cves`

For one undeduplicated record, `_process_cves` computes the affected
`(user, asset)` pairs against the record's pre-enrichment `affected_cpes`,
then calls `_create_alert_from_cve` for each pair; that call first runs
`cve.update(enrichment)` — the only statement anywhere in the flow that
mutates the record — and then the existence-check-then-insert.  Matching,
e-mail, notification and audit only read the record, and the dedup tracking
(`processed_cves.add`) touches the checker state, never the record; so the
record threads through the step and is touched only by `applyEnrichment`. -/

/-- One `_create_alert_from_cve` call, tracking the record's state: enrich the
record in place, then insert keyed on its (unchanged) `cve_id` unless the
composite identity already exists. -/
def createAlertStep (acc : List AlertRec × CveRecord) (uid aid : Nat)
    (enr : Option EnrichmentFields) : List AlertRec × CveRecord :=
  (createAlertFromCve acc.1 uid aid (applyEnrichment acc.2 enr).cve_id,
   applyEnrichment acc.2 enr)

/-- The per-record body of `_process_cves`: filter the `(user_id, asset_id,
asset)` inventory through the matcher against the record's affected
identifiers, then run `_create_alert_from_cve` for each affected pair,
threading the alert store and the record. -/
def processOneCve (store : List AlertRec) (rec : CveRecord)
    (userAssets : List (Nat × Nat × Asset)) (enr : Option EnrichmentFields) :
    List AlertRec × CveRecord :=
  (userAssets.filter fun ua => isAssetAffectedByCve ua.2.2 rec.affected_cpes).foldl
    (fun acc ua => createAlertStep acc ua.1 ua.2.1 enr) (store, rec)

/-! ### Notification dispatch (`notify_all_services` in `alert_checker.py`,
channel `send`s in `slack_webhook.py`)

A channel's HTTP post is abstracted as an `Except String Unit` (the body of
the `try`); the channel's `send` wraps it in `try/except`, so it always
completes, recording a failure instead of raising.  `notify_all_services`
resolves each channel URL as `user_url or global_url` (Python `or`, so an
empty string falls through), builds a service per truthy URL, and awaits all
their sends. -/

/-- A configured notification channel kind. -/
inductive ChannelKind where
  | slack
  | webhook
deriving DecidableEq

/-- What a channel's `send` did: posted successfully, caught and logged a
raised error, or returned early on a missing URL.  No constructor propagates
an exception: the `try/except` inside `send` catches everything. -/
inductive SendOutcome where
  | posted
  | errorLogged (e : String)
  | skippedNoUrl
deriving DecidableEq

/-- Python `a or b` on nullable strings: the left value when truthy, else the
right as-is. -/
def pyOrStr : Option String → Option String → Option String
  | some s, b => if s.isEmpty then b else some s
  | none, b => b

/-- Python truthiness of a nullable string. -/
def optTruthy : Option String → Bool
  | some s => !s.isEmpty
  | none => false

/-- A channel `send` from `slack_webhook.py`: warn-and-return on a missing
URL, otherwise run the post and catch any exception, logging it. -/
def sendWithCatch (url : String) (post : Except String Unit) : SendOutcome :=
  if url.isEmpty then SendOutcome.skippedNoUrl
  else match post with
    | Except.ok _ => SendOutcome.posted
    | Except.error e => SendOutcome.errorLogged e

/-- `notify_all_services(message, user)` from `alert_checker.py`: resolve the
Slack and generic-webhook URLs with user overrides, instantiate a service per
truthy URL, and gather their sends.  The result lists every channel that was
invoked, with its outcome. -/
def notifyAllServices (userSlack userWebhook globalSlack globalWebhook : Option String)
    (slackPost webhookPost : Except String Unit) : List (ChannelKind × SendOutcome) :=
  (match pyOrStr userSlack globalSlack with
   | some u => if u.isEmpty then [] else [(ChannelKind.slack, sendWithCatch u slackPost)]
   | none => []) ++
  (match pyOrStr userWebhook globalWebhook with
   | some u => if u.isEmpty then [] else [(ChannelKind.webhook, sendWithCatch u webhookPost)]
   | none => [])

/-- `_create_alert_from_cve` restricted to its store-and-dispatch effect: on
a duplicate, return without inserting or notifying; otherwise insert the
pending alert and dispatch the notifications.  (Everything runs inside the
method's `try/except`, and the channel sends themselves never raise.) -/
def processCveForUserAsset (store : List AlertRec) (uid aid : Nat) (cid : Option String)
    (userSlack userWebhook globalSlack globalWebhook : Option String)
    (slackPost webhookPost : Except String Unit) :
    List AlertRec × List (ChannelKind × SendOutcome) :=
  if store.any (matchesCveIdentity uid aid cid) then (store, [])
  else (store ++ [⟨uid, aid, cid, none, AlertStatus.pending⟩],
    notifyAllServices userSlack userWebhook globalSlack globalWebhook slackPost webhookPost)

/-! ### Cycle entry point and overlap protection
(`AlertChecker.check_new_vulnerabilities`, `VulnerabilityScheduler._setup_jobs`)

The engine instance's entire mutable state is the two dedup sets; the entry
point `check_new_vulnerabilities` has no busy flag and no branch that rejects
or queues an invocation — it unconditionally fetches and processes.
`CycleOutcome` is the spec's vocabulary for what an invocation of the entry
point can do, so the absence of a guard is statable: the embedded entry point
produces `ran` from every state.  Overlap protection exists only in the
scheduler configuration: `max_instances=1` on the `vulnerability_check` job. -/

/-- What an invocation of the cycle entry point does, in the spec's words: a
busy guard would produce `rejected` or `queued` while a cycle is already in
progress. -/
inductive CycleOutcome where
  | ran
  | rejected
  | queued
deriving DecidableEq

/-- The mutable state of an `AlertChecker` instance: the two in-process dedup
sets (`processed_cves`, `processed_advisories`). -/
structure CheckerState where
  processed_cves : List String
  processed_advisories : List String

/-- `_process_cves`: drop identifiers already in the dedup set, then record
the new ones as processed. -/
def processCves (st : CheckerState) (cveIds : List String) : CheckerState :=
  { st with processed_cves :=
      st.processed_cves ++ cveIds.filter (fun i => !st.processed_cves.contains i) }

/-- `_process_vendor_advisories`: same shape for advisory identifiers. -/
def processAdvisories (st : CheckerState) (advIds : List String) : CheckerState :=
  { st with processed_advisories :=
      st.processed_advisories ++ advIds.filter (fun i => !st.processed_advisories.contains i) }

/-- `check_new_vulnerabilities`: fetch, process CVEs, process advisories.
There is no busy branch: the body runs from every state, so the outcome is
always `ran`. -/
def checkNewVulnerabilities (st : CheckerState) (cveIds advIds : List String) :
    CheckerState × CycleOutcome :=
  (processAdvisories (processCves st cveIds) advIds, CycleOutcome.ran)

/-- `max_instances=1` on the `vulnerability_check` job in
`VulnerabilityScheduler._setup_jobs` — the only overlap protection present. -/
def vulnerabilityCheckMaxInstances : Nat := 1

/-! ## Sanity checks against the repository's own test suite
(`tests/test_alert_logic.py`) -/

example : fuzzyMatch "cisco" "cisco" = true := by decide
example : fuzzyMatch "Microsoft" "microsoft" = true := by decide
example : fuzzyMatch "cisco systems" "cisco" = true := by decide
example : fuzzyMatch "microsoft" "msft" = true := by decide
example : fuzzyMatch "ms" "microsoft" = true := by decide
example : fuzzyMatch "cisco" "juniper" = false := by decide
example : fuzzyMatch "fortinet" "palo alto" = false := by decide

example :
    isAssetAffectedByCve
      ⟨some "cpe:2.3:h:cisco:asa:-:*:*:*:*:*:*:*", some "Cisco", some "ASA", some "9.12"⟩
      ["cpe:2.3:h:cisco:asa:-:*:*:*:*:*:*:*"] = true := by decide

example :
    isAssetAffectedByCve ⟨none, some "Apache", some "HTTP Server", some "2.4.54"⟩
      ["cpe:2.3:a:apache:http_server:2.4.54:*:*:*:*:*:*:*"] = true := by decide

example :
    isAssetAffectedByCve ⟨none, some "Juniper", some "SRX", some "1.0"⟩
      ["cpe:2.3:a:apache:http_server:2.4.54:*:*:*:*:*:*:*"] = false := by decide

example : isAssetAffectedByVendorAdvisory ⟨none, some "Cisco", none, none⟩ "cisco" = true := by
  decide

example : isAssetAffectedByVendorAdvisory ⟨none, some "Juniper", none, none⟩ "microsoft" = false := by
  decide

/-! ## Helper lemmas -/

lemma beq_swap_chars (n1 n2 : List Char) : (n1 == n2) = (n2 == n1) := by
  by_cases h : n1 = n2
  · subst h; rfl
  · have h1 : (n1 == n2) = false := by simpa using h
    have h2 : (n2 == n1) = false := by simpa using fun hh => h hh.symm
    rw [h1, h2]

lemma bool_or_mid_swap : ∀ a b c : Bool, ((a || b) || c) = ((a || c) || b) := by
  decide

lemma anyAlias_swap (l : List (String × List String)) (n1 n2 : List Char) :
    (l.any fun p => (n1 == p.1.data && p.2.any fun a => n2 == a.data) ||
        (n2 == p.1.data && p.2.any fun a => n1 == a.data)) =
    (l.any fun p => (n2 == p.1.data && p.2.any fun a => n1 == a.data) ||
        (n1 == p.1.data && p.2.any fun a => n2 == a.data)) := by
  induction l with
  | nil => rfl
  | cons hd t ih =>
      rw [List.any_cons, List.any_cons, ih,
        Bool.or_comm (n1 == hd.1.data && hd.2.any fun a => n2 == a.data)]

lemma aliasHit_swap (n1 n2 : List Char) : aliasHit n1 n2 = aliasHit n2 n1 :=
  anyAlias_swap vendorAliases n1 n2

lemma occursIn_nil (l : List Char) : occursIn [] l = true := by
  cases l <;> rfl

lemma fuzzyMatchL_swap (t1 t2 : List Char) :
    fuzzyMatchL t1 t2 = fuzzyMatchL t2 t1 := by
  simp only [fuzzyMatchL]
  rw [beq_swap_chars (normalizeL t1) (normalizeL t2),
    aliasHit_swap (normalizeL t1) (normalizeL t2),
    bool_or_mid_swap (normalizeL t2 == normalizeL t1)
      (occursIn (normalizeL t1) (normalizeL t2))
      (occursIn (normalizeL t2) (normalizeL t1))]

lemma applyEnrichment_idem (r : CveRecord) (enr : Option EnrichmentFields) :
    applyEnrichment (applyEnrichment r enr) enr = applyEnrichment r enr := by
  cases enr <;> rfl

lemma applyEnrichment_frame (r : CveRecord) (enr : Option EnrichmentFields) :
    (applyEnrichment r enr).cve_id = r.cve_id ∧
    (applyEnrichment r enr).title = r.title ∧
    (applyEnrichment r enr).description = r.description ∧
    (applyEnrichment r enr).severity = r.severity ∧
    (applyEnrichment r enr).source_url = r.source_url ∧
    (applyEnrichment r enr).affected_cpes = r.affected_cpes := by
  cases enr <;> exact ⟨rfl, rfl, rfl, rfl, rfl, rfl⟩

lemma processFold_record (l : List (Nat × Nat × Asset)) (store : List AlertRec)
    (r0 rec : CveRecord) (enr : Option EnrichmentFields)
    (h : r0 = rec ∨ r0 = applyEnrichment rec enr) :
    (l.foldl (fun acc ua => createAlertStep acc ua.1 ua.2.1 enr) (store, r0)).2 = rec ∨
    (l.foldl (fun acc ua => createAlertStep acc ua.1 ua.2.1 enr) (store, r0)).2 =
      applyEnrichment rec enr := by
  induction l generalizing store r0 with
  | nil => simpa using h
  | cons hd t ih =>
      rw [List.foldl_cons]
      refine ih _ _ (Or.inr ?_)
      show applyEnrichment r0 enr = applyEnrichment rec enr
      rcases h with h | h
      · rw [h]
      · rw [h, applyEnrichment_idem]

lemma matchesCveIdentity_self (uid aid : Nat) (cid : Option String) :
    matchesCveIdentity uid aid cid ⟨uid, aid, cid, none, AlertStatus.pending⟩ = true := by
  simp [matchesCveIdentity]

lemma matchesAdvisoryIdentity_self (uid aid : Nat) (vid : Option String) :
    matchesAdvisoryIdentity uid aid vid ⟨uid, aid, none, vid, AlertStatus.pending⟩ = true := by
  simp [matchesAdvisoryIdentity]

lemma createCve_count (store : List AlertRec) (uid aid : Nat) (cid : Option String) :
    countCve (createAlertFromCve store uid aid cid) uid aid cid =
      if countCve store uid aid cid = 0 then 1 else countCve store uid aid cid := by
  unfold createAlertFromCve countCve
  by_cases h : store.any (matchesCveIdentity uid aid cid) = true
  · have hpos : 0 < List.countP (matchesCveIdentity uid aid cid) store := by
      rw [List.countP_pos_iff]
      exact List.any_eq_true.mp h
    rw [if_pos h, if_neg (Nat.pos_iff_ne_zero.mp hpos)]
  · have hz : List.countP (matchesCveIdentity uid aid cid) store = 0 := by
      rw [List.countP_eq_zero]
      intro a ha hpa
      exact h (List.any_eq_true.mpr ⟨a, ha, hpa⟩)
    rw [if_neg h, List.countP_append, hz, if_pos rfl]
    simp [matchesCveIdentity_self]

lemma createAdv_count (store : List AlertRec) (uid aid : Nat) (vid : Option String) :
    countAdv (createAlertFromAdvisory store uid aid vid) uid aid vid =
      if countAdv store uid aid vid = 0 then 1 else countAdv store uid aid vid := by
  unfold createAlertFromAdvisory countAdv
  by_cases h : store.any (matchesAdvisoryIdentity uid aid vid) = true
  · have hpos : 0 < List.countP (matchesAdvisoryIdentity uid aid vid) store := by
      rw [List.countP_pos_iff]
      exact List.any_eq_true.mp h
    rw [if_pos h, if_neg (Nat.pos_iff_ne_zero.mp hpos)]
  · have hz : List.countP (matchesAdvisoryIdentity uid aid vid) store = 0 := by
      rw [List.countP_eq_zero]
      intro a ha hpa
      exact h (List.any_eq_true.mpr ⟨a, ha, hpa⟩)
    rw [if_neg h, List.countP_append, hz, if_pos rfl]
    simp [matchesAdvisoryIdentity_self]

/-! ## Claim theorems -/

/-- C8: the fuzzy string match is symmetric: `fuzzyMatch a b = fuzzyMatch b a`
for all input strings `a`, `b`, under the normalization, the substring check,
and the static vendor-alias table. -/
theorem fuzzy_match_symmetric (a b : String) :
    fuzzyMatch a b = fuzzyMatch b a :=
  fuzzyMatchL_swap a.data b.data

/-- C10: if the normalization of `a` is empty, then `a` fuzzy-matches every
string `b`, because the empty string is a substring of every string; so an
asset whose vendor or product consists only of non-alphanumeric characters
fuzzy-matches every record's vendor or product. -/
theorem fuzzy_match_of_empty_normalization (a b : String)
    (h : normalize a = []) : fuzzyMatch a b = true := by
  have h' : normalizeL a.data = [] := h
  simp [fuzzyMatch, fuzzyMatchL, h', occursIn_nil]

/-- Witness for C10 at the concrete pair `("!!!", "cisco")`: the vendor string
`"!!!"` normalizes to the empty string and fuzzy-matches `"cisco"`. -/
theorem fuzzy_match_of_empty_normalization_witness :
    normalize "!!!" = [] ∧ fuzzyMatch "!!!" "cisco" = true :=
  ⟨by decide, fuzzy_match_of_empty_normalization "!!!" "cisco" (by decide)⟩

/-- Counterexample for C3: an asset with version `"*"`, whose vendor and
product fuzzy-match the identifier `"cpe:2.3:a:apache:httpserver:2.4.54"`,
is claimed to match (`specVersionAccept` holds of the two versions), but the
matcher returns `false`: the code only treats the identifier-side `"*"` as a
wildcard, never the asset-side one. -/
theorem version_wildcard_cex :
    fuzzyMatchL "apache".data (cpeVendorOf "cpe:2.3:a:apache:httpserver:2.4.54") = true ∧
    fuzzyMatchL "httpserver".data (cpeProductOf "cpe:2.3:a:apache:httpserver:2.4.54") = true ∧
    specVersionAccept "*".data (cpeVersionOf "cpe:2.3:a:apache:httpserver:2.4.54") = true ∧
    isAssetAffectedByCve ⟨none, some "apache", some "httpserver", some "*"⟩
      ["cpe:2.3:a:apache:httpserver:2.4.54"] = false :=
  ⟨by decide, by decide, by decide, by decide⟩

/-- C3, amended: once vendor and product fuzzy-match (and the identifier has
at least 5 components), the per-identifier match outcome is exactly
`codeVersionAccept`: accepted when the asset's version is empty, or the
identifier's version is empty or `"*"`, or the two versions are exactly
equal; the asset-side `"*"` is not a wildcard. -/
theorem version_policy_code (av ap aver : List Char) (cpe : String)
    (h5 : 5 ≤ (cpeTokens cpe).length)
    (hv : fuzzyMatchL av (cpeVendorOf cpe) = true)
    (hp : fuzzyMatchL ap (cpeProductOf cpe) = true) :
    cpeMatchOne av ap aver cpe = codeVersionAccept aver (cpeVersionOf cpe) := by
  simp [cpeMatchOne, codeVersionAccept, h5, hv, hp]

/-- Witness for the amended C3 at the end-to-end example identifier: an asset
version equal to the identifier's version is accepted. -/
theorem version_policy_code_witness :
    5 ≤ (cpeTokens "cpe:2.3:a:apache:http_server:2.4.54:*:*:*:*:*:*:*").length ∧
    cpeMatchOne "apache".data "httpserver".data "2.4.54".data
      "cpe:2.3:a:apache:http_server:2.4.54:*:*:*:*:*:*:*" =
      codeVersionAccept "2.4.54".data
        (cpeVersionOf "cpe:2.3:a:apache:http_server:2.4.54:*:*:*:*:*:*:*") :=
  ⟨by decide,
   version_policy_code "apache".data "httpserver".data "2.4.54".data
     "cpe:2.3:a:apache:http_server:2.4.54:*:*:*:*:*:*:*"
     (by decide) (by decide) (by decide)⟩

/-- Counterexample for C7: the empty string is an element of the record's
affected-identifier list and is the asset's `cpe_string`, yet the matcher
returns `false`, because the direct-match branch first requires the
identifier to be truthy (non-empty). -/
theorem direct_cpe_match_cex :
    ("" ∈ ([""] : List String)) ∧
    isAssetAffectedByCve ⟨some "", none, none, none⟩ [""] = false :=
  ⟨by decide, by decide⟩

/-- C7, amended: whenever the asset's structured identifier is present,
non-empty, and an element of the record's affected identifiers, the matcher
returns `true` (the direct-match branch fires before any fuzzy matching). -/
theorem direct_cpe_match (asset : Asset) (cveCpes : List String) (s : String)
    (hs : asset.cpe_string = some s) (hne : s.isEmpty = false)
    (hmem : s ∈ cveCpes) :
    isAssetAffectedByCve asset cveCpes = true := by
  have hany : cveCpes.any (fun c => c.data == s.data) = true := by
    rw [List.any_eq_true]
    exact ⟨s, hmem, by simp⟩
  simp [isAssetAffectedByCve, hs, hne, hany]

/-- Witness for the amended C7 at the test-suite asset: a Cisco ASA appliance
whose exact identifier appears in the record's affected list. -/
theorem direct_cpe_match_witness :
    ("cpe:2.3:h:cisco:asa:-:*:*:*:*:*:*:*" ∈
        (["cpe:2.3:h:cisco:asa:-:*:*:*:*:*:*:*"] : List String)) ∧
    isAssetAffectedByCve
      ⟨some "cpe:2.3:h:cisco:asa:-:*:*:*:*:*:*:*", none, none, none⟩
      ["cpe:2.3:h:cisco:asa:-:*:*:*:*:*:*:*"] = true :=
  ⟨by decide,
   direct_cpe_match ⟨some "cpe:2.3:h:cisco:asa:-:*:*:*:*:*:*:*", none, none, none⟩
     ["cpe:2.3:h:cisco:asa:-:*:*:*:*:*:*:*"] "cpe:2.3:h:cisco:asa:-:*:*:*:*:*:*:*"
     rfl (by decide) (by decide)⟩

/-- Counterexample for C9: a record with no CVSS score available derives the
severity `"unknown"`, which is not one of the four enum levels. -/
theorem severity_enum_cex :
    getSeverityFromScore none = "unknown" ∧ "unknown" ∉ severityLevels :=
  ⟨rfl, by decide⟩

/-- C9, amended: score `9.1` derives `"critical"`; every numeric score
derives one of the four enum levels, with the thresholds `critical ≥ 9.0`,
`high ≥ 7.0`, `medium ≥ 4.0`, `low` otherwise; but a record with no CVSS
score derives `"unknown"`, outside the enum. -/
theorem severity_from_score_levels :
    getSeverityFromScore (some (91 / 10)) = "critical" ∧
    getSeverityFromScore none = "unknown" ∧
    (∀ q : ℚ, getSeverityFromScore (some q) ∈ severityLevels) ∧
    (∀ q : ℚ, 9 ≤ q → getSeverityFromScore (some q) = "critical") ∧
    (∀ q : ℚ, 7 ≤ q → q < 9 → getSeverityFromScore (some q) = "high") ∧
    (∀ q : ℚ, 4 ≤ q → q < 7 → getSeverityFromScore (some q) = "medium") ∧
    (∀ q : ℚ, q < 4 → getSeverityFromScore (some q) = "low") := by
  refine ⟨?_, rfl, ?_, ?_, ?_, ?_, ?_⟩
  · show (if (9 : ℚ) ≤ 91 / 10 then "critical"
      else if (7 : ℚ) ≤ 91 / 10 then "high"
      else if (4 : ℚ) ≤ 91 / 10 then "medium" else "low") = "critical"
    rw [if_pos (by norm_num)]
  · intro q
    show (if 9 ≤ q then "critical"
      else if 7 ≤ q then "high"
      else if 4 ≤ q then "medium" else "low") ∈ severityLevels
    split_ifs <;> decide
  · intro q h9
    show (if 9 ≤ q then "critical"
      else if 7 ≤ q then "high"
      else if 4 ≤ q then "medium" else "low") = "critical"
    rw [if_pos h9]
  · intro q h7 h9
    show (if 9 ≤ q then "critical"
      else if 7 ≤ q then "high"
      else if 4 ≤ q then "medium" else "low") = "high"
    rw [if_neg (not_le.mpr h9), if_pos h7]
  · intro q h4 h7
    show (if 9 ≤ q then "critical"
      else if 7 ≤ q then "high"
      else if 4 ≤ q then "medium" else "low") = "medium"
    rw [if_neg (not_le.mpr (h7.trans (by norm_num))), if_neg (not_le.mpr h7),
      if_pos h4]
  · intro q h4
    show (if 9 ≤ q then "critical"
      else if 7 ≤ q then "high"
      else if 4 ≤ q then "medium" else "low") = "low"
    rw [if_neg (not_le.mpr (h4.trans (by norm_num))),
      if_neg (not_le.mpr (h4.trans (by norm_num))), if_neg (not_le.mpr h4)]

/-- Witness for the amended C9: `7.6` lies in the `high` band and the theorem
instantiates there. -/
theorem severity_from_score_levels_witness :
    (7 : ℚ) ≤ 76 / 10 ∧ (76 / 10 : ℚ) < 9 ∧
    getSeverityFromScore (some (76 / 10)) = "high" :=
  ⟨by norm_num, by norm_num,
   severity_from_score_levels.2.2.2.2.1 (76 / 10) (by norm_num) (by norm_num)⟩

/-- Counterexample for C4: `update_alert` applied to an acknowledged alert
with a payload requesting status `pending` returns the alert to `pending` —
`Acknowledged` is not terminal and a transition back to `Pending` is exposed. -/
theorem status_monotonic_cex :
    (updateAlert ⟨AlertStatus.acknowledged, some 5⟩
      ⟨some AlertStatus.pending, none⟩).status = AlertStatus.pending :=
  rfl

/-- C4, amended: alerts are created with initial status `Pending` and the
acknowledge operation always moves an alert to `Acknowledged`; but the
generic update operation applies any requested status — including `Pending` —
to an alert in any state, so the status transitions are not monotonic and no
state is terminal. -/
theorem status_transitions (a : AlertRow) (now : Nat) (s : AlertStatus) :
    (acknowledgeAlert a now).status = AlertStatus.acknowledged ∧
    (acknowledgeAlert a now).acknowledged_at = some now ∧
    (updateAlert a ⟨some s, none⟩).status = s ∧
    (updateAlert a ⟨none, none⟩).status = a.status :=
  ⟨rfl, rfl, rfl, rfl⟩

/-- Counterexample for C5: a record with a non-empty `cvss_score` of `9.8`
and a non-empty remediation link, merged with an enrichment result whose
values are all `None` (as produced when the NVD item carries no `impact`
block), loses both: `dict.update` overwrites non-empty fields with `None`. -/
theorem enrichment_merge_cex :
    (applyEnrichment
        ⟨some "CVE-2024-0001", some "t", some "d", some "critical",
          some (98 / 10), none, some "https://vendor/fix", some "u", []⟩
        (some ⟨none, none, none⟩)).cvss_score = none ∧
    (applyEnrichment
        ⟨some "CVE-2024-0001", some "t", some "d", some "critical",
          some (98 / 10), none, some "https://vendor/fix", some "u", []⟩
        (some ⟨none, none, none⟩)).remediation = none :=
  ⟨rfl, rfl⟩

/-- C5, amended: no component other than enrichment mutates a record after
ingestion — across the whole per-record processing step (matching, alert
creation, notification, audit) the record's final state is either unchanged
or exactly the enrichment merge of its original state, a failed (empty)
enrichment leaves the record unchanged, and every field outside the three
enrichment keys is preserved; but the merge replaces `cvss_score`,
`exploitability` and `remediation` unconditionally, even overwriting a
non-empty value with `None` from the enrichment result. -/
theorem enrichment_sole_mutation (store : List AlertRec) (rec : CveRecord)
    (userAssets : List (Nat × Nat × Asset)) (enr : Option EnrichmentFields)
    (e : EnrichmentFields) :
    (processOneCve store rec userAssets none).2 = rec ∧
    ((processOneCve store rec userAssets enr).2 = rec ∨
      (processOneCve store rec userAssets enr).2 = applyEnrichment rec enr) ∧
    (processOneCve store rec userAssets enr).2.cve_id = rec.cve_id ∧
    (processOneCve store rec userAssets enr).2.title = rec.title ∧
    (processOneCve store rec userAssets enr).2.description = rec.description ∧
    (processOneCve store rec userAssets enr).2.severity = rec.severity ∧
    (processOneCve store rec userAssets enr).2.source_url = rec.source_url ∧
    (processOneCve store rec userAssets enr).2.affected_cpes = rec.affected_cpes ∧
    (applyEnrichment rec (some e)).cvss_score = e.cvss_score ∧
    (applyEnrichment rec (some e)).exploitability = e.exploitability ∧
    (applyEnrichment rec (some e)).remediation = e.remediation := by
  have hnone : (processOneCve store rec userAssets none).2 = rec ∨
      (processOneCve store rec userAssets none).2 = applyEnrichment rec none :=
    processFold_record _ store rec rec none (Or.inl rfl)
  have hgen : (processOneCve store rec userAssets enr).2 = rec ∨
      (processOneCve store rec userAssets enr).2 = applyEnrichment rec enr :=
    processFold_record _ store rec rec enr (Or.inl rfl)
  obtain ⟨f1, f2, f3, f4, f5, f6⟩ := applyEnrichment_frame rec enr
  refine ⟨?_, hgen, ?_, ?_, ?_, ?_, ?_, ?_, rfl, rfl, rfl⟩
  · rcases hnone with h | h <;> exact h
  · rcases hgen with h | h
    · rw [h]
    · rw [h, f1]
  · rcases hgen with h | h
    · rw [h]
    · rw [h, f2]
  · rcases hgen with h | h
    · rw [h]
    · rw [h, f3]
  · rcases hgen with h | h
    · rw [h]
    · rw [h, f4]
  · rcases hgen with h | h
    · rw [h]
    · rw [h, f5]
  · rcases hgen with h | h
    · rw [h]
    · rw [h, f6]

/-- C1: with the store's existence check live, processing the same record
twice in sequence persists exactly one alert for the composite identity, for
both the CVE path (`user_id`, `asset_id`, `cve_id`) and the advisory path
(`user_id`, `asset_id`, `vendor_advisory_id`); and the "at most one alert per
composite identity" invariant is preserved by every creation. -/
theorem alert_creation_idempotent (store : List AlertRec) (uid aid : Nat)
    (cid vid : Option String) :
    (countCve store uid aid cid = 0 →
      countCve (createAlertFromCve (createAlertFromCve store uid aid cid) uid aid cid)
        uid aid cid = 1) ∧
    (countCve store uid aid cid ≤ 1 →
      countCve (createAlertFromCve store uid aid cid) uid aid cid ≤ 1) ∧
    (countAdv store uid aid vid = 0 →
      countAdv (createAlertFromAdvisory (createAlertFromAdvisory store uid aid vid) uid aid vid)
        uid aid vid = 1) ∧
    (countAdv store uid aid vid ≤ 1 →
      countAdv (createAlertFromAdvisory store uid aid vid) uid aid vid ≤ 1) := by
  refine ⟨?_, ?_, ?_, ?_⟩
  · intro h0
    rw [createCve_count, createCve_count, h0, if_pos rfl]
    norm_num
  · intro h1
    rw [createCve_count]
    by_cases h0 : countCve store uid aid cid = 0
    · rw [if_pos h0]
    · rw [if_neg h0]; exact h1
  · intro h0
    rw [createAdv_count, createAdv_count, h0, if_pos rfl]
    norm_num
  · intro h1
    rw [createAdv_count]
    by_cases h0 : countAdv store uid aid vid = 0
    · rw [if_pos h0]
    · rw [if_neg h0]; exact h1

/-- Witness for C1 at a concrete empty store and identity: both paths create
exactly one alert when run twice in sequence. -/
theorem alert_creation_idempotent_witness :
    countCve [] 1 2 (some "CVE-2024-0001") = 0 ∧
    countAdv [] 1 2 (some "cisco-sa-1") = 0 ∧
    countCve (createAlertFromCve (createAlertFromCve [] 1 2 (some "CVE-2024-0001"))
      1 2 (some "CVE-2024-0001")) 1 2 (some "CVE-2024-0001") = 1 ∧
    countAdv (createAlertFromAdvisory (createAlertFromAdvisory [] 1 2 (some "cisco-sa-1"))
      1 2 (some "cisco-sa-1")) 1 2 (some "cisco-sa-1") = 1 :=
  ⟨rfl, rfl,
   (alert_creation_idempotent [] 1 2 (some "CVE-2024-0001") (some "cisco-sa-1")).1 rfl,
   (alert_creation_idempotent [] 1 2 (some "CVE-2024-0001") (some "cisco-sa-1")).2.2.1 rfl⟩

/-- C2: with both channels configured and the Slack channel's post raising,
dispatch still invokes and completes the generic-webhook channel with its own
outcome, the Slack failure is caught and logged (it appears as a recorded
outcome, not a propagated exception), and the alert-creation flow still
inserts the pending alert. -/
theorem notification_isolation (store : List AlertRec) (uid aid : Nat)
    (cid : Option String) (us uw gs gw : Option String) (err : String)
    (wp : Except String Unit)
    (hnew : store.any (matchesCveIdentity uid aid cid) = false)
    (hs : optTruthy (pyOrStr us gs) = true)
    (hw : optTruthy (pyOrStr uw gw) = true) :
    processCveForUserAsset store uid aid cid us uw gs gw (Except.error err) wp =
      (store ++ [⟨uid, aid, cid, none, AlertStatus.pending⟩],
       [(ChannelKind.slack, SendOutcome.errorLogged err),
        (ChannelKind.webhook, sendWithCatch ((pyOrStr uw gw).getD "") wp)]) := by
  cases hsu : pyOrStr us gs with
  | none => rw [hsu] at hs; exact absurd hs (by simp [optTruthy])
  | some u =>
      cases hwu : pyOrStr uw gw with
      | none => rw [hwu] at hw; exact absurd hw (by simp [optTruthy])
      | some w =>
          rw [hsu] at hs
          rw [hwu] at hw
          have hu : u.isEmpty = false := by simpa [optTruthy] using hs
          have hww : w.isEmpty = false := by simpa [optTruthy] using hw
          simp [processCveForUserAsset, hnew, notifyAllServices, hsu, hwu, hu, hww,
            sendWithCatch]

/-- Witness for C2: a tenant-level webhook override and a global Slack URL,
with the Slack post raising a timeout; the webhook channel still posts and
the alert is persisted. -/
theorem notification_isolation_witness :
    ([] : List AlertRec).any (matchesCveIdentity 1 2 (some "CVE-2024-0001")) = false ∧
    optTruthy (pyOrStr none (some "https://hooks.example/slack")) = true ∧
    optTruthy (pyOrStr (some "https://user.example/hook") none) = true ∧
    processCveForUserAsset [] 1 2 (some "CVE-2024-0001")
      none (some "https://user.example/hook") (some "https://hooks.example/slack") none
      (Except.error "timeout") (Except.ok ()) =
      ([⟨1, 2, some "CVE-2024-0001", none, AlertStatus.pending⟩],
       [(ChannelKind.slack, SendOutcome.errorLogged "timeout"),
        (ChannelKind.webhook,
          sendWithCatch ((pyOrStr (some "https://user.example/hook") none).getD "")
            (Except.ok ()))]) :=
  ⟨rfl, by decide, by decide,
   notification_isolation [] 1 2 (some "CVE-2024-0001")
     none (some "https://user.example/hook") (some "https://hooks.example/slack") none
     "timeout" (Except.ok ()) rfl (by decide) (by decide)⟩

/-- Counterexample for C6: invoking the entry point from a state that a
concurrently-running cycle has already half-populated is not rejected or
queued — it runs; the engine has no busy guard of its own. -/
theorem busy_guard_cex :
    (checkNewVulnerabilities ⟨["CVE-2024-0001"], []⟩ ["CVE-2024-0002"] []).2 =
        CycleOutcome.ran ∧
    CycleOutcome.ran ≠ CycleOutcome.rejected ∧
    CycleOutcome.ran ≠ CycleOutcome.queued :=
  ⟨rfl, by decide, by decide⟩

/-- C6, amended: the engine's entry point itself enforces no mutual
exclusion — from every state it simply runs the cycle (never `rejected` or
`queued`) — and at-most-one-cycle-at-a-time comes only from the external
scheduler's `max_instances=1` job configuration. -/
theorem busy_guard_amended (st : CheckerState) (cveIds advIds : List String) :
    (checkNewVulnerabilities st cveIds advIds).2 = CycleOutcome.ran ∧
    vulnerabilityCheckMaxInstances = 1 :=
  ⟨rfl, rfl⟩

end CyberSaas
